import Mathlib

/-!
# Verification of `src/adbb.py`

A shallow embedding of the small desktop utility in `src/adbb.py`, which
drives an external `adbb` binary to take screenshots and screen recordings
from a connected device.  External-world behaviour (what `subprocess.run`
and `subprocess.Popen` do for a given argument list) is a parameter of each
embedded function; the observable behaviour of a flow is the ordered list
of events it produces (commands issued, dialogs shown, status updates,
process spawns and terminations).
-/

namespace Adbb

/-! ## String helpers

Python string operations used by the source, implemented structurally over
`List Char` so that concrete instances evaluate inside the kernel.
-/

/-- Python `str.strip()` (no argument): drop leading and trailing
whitespace.  Lean's `Char.isWhitespace` covers space, tab, CR and LF, the
characters that occur in tool output. -/
def pyStrip (s : String) : String :=
  String.mk (((s.data.dropWhile Char.isWhitespace).reverse.dropWhile Char.isWhitespace).reverse)

/-- Split a character list at every occurrence of `sep` (the pieces do not
contain `sep`); always returns at least one piece. -/
def splitOnChar (sep : Char) : List Char → List (List Char)
  | [] => [[]]
  | c :: cs =>
    let rest := splitOnChar sep cs
    if c = sep then [] :: rest
    else
      match rest with
      | [] => [[c]]
      | r :: rs => (c :: r) :: rs

/-- Python `str.splitlines()`, for `\n` line boundaries: split on `\n`,
with no empty final piece for a trailing newline and `[]` for `""`. -/
def splitlines (s : String) : List String :=
  if s.data = [] then []
  else
    let parts := (splitOnChar (Char.ofNat 10) s.data).map String.mk
    if parts.getLast? = some "" then parts.dropLast else parts

/-- Does `p` start the list `l`? -/
def startsWith : List Char → List Char → Bool
  | [], _ => true
  | _ :: _, [] => false
  | p :: ps, c :: cs => p = c && startsWith ps cs

/-- Does `pat` occur in `l`? -/
def containsList (pat : List Char) : List Char → Bool
  | [] => startsWith pat []
  | c :: cs => startsWith pat (c :: cs) || containsList pat cs

/-- Python `pat in s`: substring containment. -/
def containsSub (s pat : String) : Bool :=
  containsList pat.data s.data

/-! ## The external world -/

/-- Outcome of one invocation of the external binary: either the process
runs and produces stdout/stderr text, or the invocation itself throws
(for example, binary not found) with exception text `msg`. -/
inductive RunOutcome where
  | ok (stdout stderr : String)
  | exn (msg : String)
deriving Repr, DecidableEq

/-- The environment: what `subprocess.run([ADB_BIN] + args, ...)` does for
each argument list (the `ADB_BIN` prefix is left implicit). -/
def Env : Type := List String → RunOutcome

/-- `ADB_BIN = "adbb"` from the source. -/
def ADB_BIN : String := "adbb"

/-! ## Observable events -/

/-- One observable effect of a flow, in program order: a synchronous
command with its result, a `messagebox` dialog, a status-label update, a
`subprocess.Popen` spawn, a `proc.terminate()`, or a
`threading.Thread(...).start()`. -/
inductive Event where
  | cmd (args : List String) (stdout stderr : String)
  | msgError (title text : String)
  | msgWarning (title text : String)
  | msgInfo (title text : String)
  | status (text : String)
  | popen (args : List String)
  | terminate
  | spawnWorker
deriving Repr, DecidableEq

/-- The synchronous external commands issued in a trace, in order. -/
def cmdsOf (evts : List Event) : List (List String) :=
  evts.filterMap fun ev =>
    match ev with
    | .cmd args _ _ => some args
    | _ => none

/-- The `pull` commands issued in a trace, in order. -/
def pullCmds (evts : List Event) : List (List String) :=
  evts.filterMap fun ev =>
    match ev with
    | .cmd args _ _ =>
      match args with
      | ["pull", src, dst] => some ["pull", src, dst]
      | _ => none
    | _ => none

/-- Local files produced by a trace: the destination of every `pull`
command whose error stream was empty. -/
def producedFiles (evts : List Event) : List String :=
  evts.filterMap fun ev =>
    match ev with
    | .cmd args _ stderr =>
      match args with
      | ["pull", _, dst] => if stderr = "" then some dst else none
      | _ => none
    | _ => none

/-- Device-side delete commands (`shell rm <path>`) issued in a trace:
the deleted paths, in order. -/
def deleteCmds (evts : List Event) : List String :=
  evts.filterMap fun ev =>
    match ev with
    | .cmd args _ _ =>
      match args with
      | ["shell", "rm", p] => some p
      | _ => none
    | _ => none

/-- The `proc.terminate()` attempts made in a trace. -/
def terminates (evts : List Event) : List Event :=
  evts.filterMap fun ev =>
    match ev with
    | .terminate => some Event.terminate
    | _ => none

/-! ## `adb_cmd` -/

/-- `adb_cmd(args_list)` from the source: run the external binary and
return `(stdout.strip(), stderr.strip())`; if the invocation throws,
return `("", str(e))`.  The function is total: no exception propagates. -/
def adb_cmd (env : Env) (args_list : List String) : String × String :=
  match env args_list with
  | .ok out err => (pyStrip out, pyStrip err)
  | .exn e => ("", e)

/-! ## `check_device_connected` -/

/-- The filter of `check_device_connected`: Python
`ln.strip() and "device" in ln`. -/
def deviceLine (ln : String) : Bool :=
  pyStrip ln != "" && containsSub ln "device"

/-- The device lines parsed from `adbb devices` output: every line after
the header that is non-blank and contains the token `device`. -/
def parsedDevices (out : String) : List String :=
  ((splitlines out).drop 1).filter deviceLine

/-- `check_device_connected()` from the source: the Bool it returns
together with the events it produces. -/
def check_device_connected (env : Env) : Bool × List Event :=
  let out := (adb_cmd env ["devices"]).1
  let err := (adb_cmd env ["devices"]).2
  if err ≠ "" then
    (false, [Event.cmd ["devices"] out err,
             Event.msgError "ADBB Error" (ADB_BIN ++ " devices failed:\n" ++ err)])
  else if (parsedDevices out).isEmpty then
    (false, [Event.cmd ["devices"] out err,
             Event.msgWarning "No Device"
               ("No " ++ ADB_BIN ++ " device detected.\n\nCheck USB/debugging and try again.")])
  else
    (true, [Event.cmd ["devices"] out err])

/-! ## `take_screenshot` -/

/-- `take_screenshot()` from the source: its full event trace.  The value
of `time.strftime("%Y%m%d_%H%M%S")` is passed in as `timestamp`. -/
def take_screenshot (env : Env) (timestamp : String) : List Event :=
  let chk := check_device_connected env
  if !chk.1 then chk.2
  else
    let out_filename := "screenshot_" ++ timestamp ++ ".png"
    let device_tmp := "/sdcard/tre_screenshot_tmp.png"
    let r1 := adb_cmd env ["shell", "screencap", "-p", device_tmp]
    let ev1 := chk.2 ++ [Event.status "Capturing screenshot on device...",
                         Event.cmd ["shell", "screencap", "-p", device_tmp] r1.1 r1.2]
    if r1.2 ≠ "" then
      ev1 ++ [Event.msgError "ADBB Error" ("screencap failed:\n" ++ r1.2)]
    else
      let r2 := adb_cmd env ["pull", device_tmp, out_filename]
      let ev2 := ev1 ++ [Event.status "Pulling screenshot from device...",
                         Event.cmd ["pull", device_tmp, out_filename] r2.1 r2.2]
      if r2.2 ≠ "" then
        ev2 ++ [Event.msgError "ADBB Error" ("pull failed:\n" ++ r2.2)]
      else
        let r3 := adb_cmd env ["shell", "rm", device_tmp]
        ev2 ++ [Event.cmd ["shell", "rm", device_tmp] r3.1 r3.2,
                Event.status ("Saved screenshot: " ++ out_filename)]

/-! ## The recording worker -/

/-- Result of one run of the recording worker: its event trace, and
whether it reset the shared `recording` flag to `false` (only the
Popen-exception abort path does). -/
structure WorkerResult where
  events : List Event
  flagReset : Bool
deriving Repr, DecidableEq

/-- `_record_worker()` from the source.  `popen` is the outcome of
`subprocess.Popen([ADB_BIN, "shell", "screenrecord", device_tmp], ...)`:
`.ok ()` if the process spawned, `.error e` if the spawn threw.  The
polling loop (which exits once the shared flag is false) and the
`time.sleep` calls are elided: only their completion is observable, so the
trace here is the worker's trace for a session in which a stop request
eventually arrives.  The `try/except` around `proc.terminate()` swallows
any exception, so the terminate attempt is recorded unconditionally. -/
def record_worker (env : Env) (popen : Except String Unit) (timestamp : String) :
    WorkerResult :=
  let out_filename := "record_" ++ timestamp ++ ".mp4"
  let device_tmp := "/sdcard/tre_record_tmp.mp4"
  let ev0 := [Event.status ("Starting " ++ ADB_BIN ++ " screenrecord...")]
  match popen with
  | .error e =>
    ⟨ev0 ++ [Event.status ("Failed to start screenrecord: " ++ e)], true⟩
  | .ok _ =>
    let r := adb_cmd env ["pull", device_tmp, out_filename]
    let ev1 := ev0 ++ [Event.popen ["shell", "screenrecord", device_tmp],
                       Event.status "Stopping recording, please wait...",
                       Event.terminate,
                       Event.status "Pulling video from device...",
                       Event.cmd ["pull", device_tmp, out_filename] r.1 r.2]
    let ev2 :=
      if r.2 ≠ "" then ev1 ++ [Event.status ("Pull error: " ++ r.2)]
      else ev1 ++ [Event.status ("Saved recording: " ++ out_filename)]
    let r4 := adb_cmd env ["shell", "rm", device_tmp]
    ⟨ev2 ++ [Event.cmd ["shell", "rm", device_tmp] r4.1 r4.2], false⟩

/-! ## `start_recording` / `stop_recording` -/

/-- The module-level mutable state touched by the start/stop handlers:
the `recording` flag and the `record_thread` handle (modelled as a thread
id drawn from a counter, so that a fresh spawn is visibly a new handle). -/
structure AppState where
  recording : Bool
  record_thread : Option Nat
  nextThreadId : Nat
deriving Repr, DecidableEq

/-- State at program start: `recording = False`, `record_thread = None`. -/
def initialAppState : AppState := ⟨false, none, 0⟩

/-- `start_recording()` from the source: the new state and the events.
`Event.spawnWorker` marks `threading.Thread(target=_record_worker).start()`. -/
def start_recording (env : Env) (s : AppState) : AppState × List Event :=
  if s.recording then
    (s, [Event.msgInfo "Info" "Recording is already in progress."])
  else
    let chk := check_device_connected env
    if !chk.1 then (s, chk.2)
    else
      (⟨true, some s.nextThreadId, s.nextThreadId + 1⟩,
       chk.2 ++ [Event.spawnWorker, Event.status "Recording: ON"])

/-- `stop_recording()` from the source. -/
def stop_recording (s : AppState) : AppState × List Event :=
  if !s.recording then
    (s, [Event.msgInfo "Info" "No recording is currently running."])
  else
    ({ s with recording := false }, [Event.status "Recording: Stopping..."])

/-! ## Interleaving model of the flag and the workers

The `recording` flag is written by the UI thread (`start_recording`,
`stop_recording`) and read by worker threads, and each worker lives from
its spawn until it exits its polling loop and finishes teardown (or
aborts when its Popen throws).  `SysState` abstracts this to the flag and
the number of live workers; `sysStep` gives each UI request and each
worker-lifecycle event as one atomic step, exactly as the handlers treat
the flag in the source.
-/

structure SysState where
  recording : Bool
  workers : Nat
deriving Repr, DecidableEq

/-- One atomic step: a start request (with or without a device present),
a stop request, a worker finishing its teardown and exiting, or a worker
aborting because its Popen threw. -/
inductive Action where
  | start (devicePresent : Bool)
  | stop
  | workerExit
  | workerAbort
deriving Repr, DecidableEq

/-- The step function.  `start` follows `start_recording`: a no-op while
the flag is true, a no-op when the device check fails, otherwise it sets
the flag and spawns one worker.  `stop` follows `stop_recording`.
`workerExit` and `workerAbort` need a live worker; an aborting worker
resets the flag (line `recording = False` of the source). -/
def sysStep (s : SysState) (a : Action) : Option SysState :=
  match a with
  | .start present =>
    if s.recording then some s
    else if present then some ⟨true, s.workers + 1⟩
    else some s
  | .stop =>
    if s.recording then some ⟨false, s.workers⟩ else some s
  | .workerExit =>
    if s.workers = 0 then none else some ⟨s.recording, s.workers - 1⟩
  | .workerAbort =>
    if s.workers = 0 then none else some ⟨false, s.workers - 1⟩

/-- State at program start: flag false, no worker. -/
def initialSys : SysState := ⟨false, 0⟩

/-- Run a sequence of steps; `none` if some step was not enabled. -/
def sysRun (s : SysState) : List Action → Option SysState
  | [] => some s
  | a :: as =>
    match sysStep s a with
    | none => none
    | some t => sysRun t as

/-- A trace is serialized when every start request is issued either while
the flag is still true (where it is a no-op) or after every worker of the
previous session has exited. -/
def serializedFrom (s : SysState) : List Action → Bool
  | [] => true
  | a :: as =>
    (match a with
     | .start _ => s.recording || s.workers == 0
     | _ => true) &&
    (match sysStep s a with
     | none => true
     | some t => serializedFrom t as)

/-! ## Helper lemmas -/

lemma filter_isEmpty_eq_not_any {α : Type} (l : List α) (p : α → Bool) :
    (l.filter p).isEmpty = !l.any p := by
  induction l with
  | nil => rfl
  | cons a t ih =>
    by_cases h : p a
    · simp [List.filter_cons, h]
    · simp [List.filter_cons, h, ih]

/-- The device check issues exactly one external command, `devices`. -/
lemma check_cmdsOf (env : Env) :
    cmdsOf (check_device_connected env).2 = [["devices"]] := by
  unfold check_device_connected
  dsimp only
  split
  · simp [cmdsOf]
  · split <;> simp [cmdsOf]

/-- The device check issues no `pull` command. -/
lemma check_pullCmds (env : Env) :
    pullCmds (check_device_connected env).2 = [] := by
  unfold check_device_connected
  dsimp only
  split
  · simp [pullCmds]
  · split <;> simp [pullCmds]

/-- The device check produces no local file. -/
lemma check_producedFiles (env : Env) :
    producedFiles (check_device_connected env).2 = [] := by
  unfold check_device_connected
  dsimp only
  split
  · simp [producedFiles]
  · split <;> simp [producedFiles]

/-- The device check issues no device-side delete. -/
lemma check_deleteCmds (env : Env) :
    deleteCmds (check_device_connected env).2 = [] := by
  unfold check_device_connected
  dsimp only
  split
  · simp [deleteCmds]
  · split <;> simp [deleteCmds]

lemma cmdsOf_append (l l' : List Event) :
    cmdsOf (l ++ l') = cmdsOf l ++ cmdsOf l' := by
  simp [cmdsOf]

lemma pullCmds_append (l l' : List Event) :
    pullCmds (l ++ l') = pullCmds l ++ pullCmds l' := by
  simp [pullCmds]

lemma producedFiles_append (l l' : List Event) :
    producedFiles (l ++ l') = producedFiles l ++ producedFiles l' := by
  simp [producedFiles]

lemma deleteCmds_append (l l' : List Event) :
    deleteCmds (l ++ l') = deleteCmds l ++ deleteCmds l' := by
  simp [deleteCmds]

/-! ## Claim theorems -/

/-- **C2**: for every device-listing output consisting of a header line
followed by further lines (and an empty error stream), the presence check
reports presence exactly when some non-blank line after the header
contains the device-state token `device`; the header line itself is never
counted (it is dropped before filtering). -/
theorem C2_device_check (env : Env) (out err : String)
    (hdev : env ["devices"] = RunOutcome.ok out err)
    (herr : pyStrip err = "") :
    (check_device_connected env).1 =
      ((splitlines (pyStrip out)).drop 1).any
        (fun ln => pyStrip ln != "" && containsSub ln "device") := by
  have hadb : adb_cmd env ["devices"] = (pyStrip out, "") := by
    simp [adb_cmd, hdev, herr]
  unfold check_device_connected
  rw [hadb]
  dsimp only
  rw [if_neg (by simp)]
  rw [parsedDevices, filter_isEmpty_eq_not_any]
  have hfun : (fun ln : String => pyStrip ln != "" && containsSub ln "device") = deviceLine :=
    rfl
  rw [hfun]
  cases h : ((splitlines (pyStrip out)).drop 1).any deviceLine <;> simp [h]

/-- Witness for C2: a listing with a header and one `device` line is
judged present. -/
theorem C2_witness :
    (check_device_connected
        (fun _ => RunOutcome.ok "List of devices attached\nemulator-5554\tdevice" "")).1 =
      ((splitlines (pyStrip "List of devices attached\nemulator-5554\tdevice")).drop 1).any
        (fun ln => pyStrip ln != "" && containsSub ln "device") ∧
    (check_device_connected
        (fun _ => RunOutcome.ok "List of devices attached\nemulator-5554\tdevice" "")).1 = true :=
  ⟨C2_device_check _ "List of devices attached\nemulator-5554\tdevice" "" rfl rfl,
   by decide⟩

/-- **C9**: the command executor returns the tool's stdout and stderr with
surrounding whitespace trimmed when the invocation runs, and returns empty
stdout together with the exception text when the invocation itself throws;
being a total function of the invocation outcome, it propagates no
exception. -/
theorem C9_adb_cmd (env : Env) (args : List String) :
    (∀ out err, env args = RunOutcome.ok out err →
        adb_cmd env args = (pyStrip out, pyStrip err)) ∧
    (∀ e, env args = RunOutcome.exn e →
        adb_cmd env args = ("", e)) := by
  constructor
  · intro out err h
    simp [adb_cmd, h]
  · intro e h
    simp [adb_cmd, h]

/-- Witness for C9: one run outcome and one thrown invocation, evaluated. -/
theorem C9_witness :
    adb_cmd (fun _ => RunOutcome.ok " out \n" "\terr ") ["devices"] = ("out", "err") ∧
    adb_cmd (fun _ => RunOutcome.exn "no such file") ["devices"] = ("", "no such file") := by
  constructor
  · have h := (C9_adb_cmd (fun _ => RunOutcome.ok " out \n" "\terr ") ["devices"]).1
      " out \n" "\terr " rfl
    rw [h]; decide
  · exact (C9_adb_cmd (fun _ => RunOutcome.exn "no such file") ["devices"]).2
      "no such file" rfl

/-- **C7**: when spawning the external capture process throws, the worker
aborts immediately: it resets the recording flag, surfaces the error as
status text, and performs no terminate, no external command (hence no pull
and no device-side delete). -/
theorem C7_popen_failure (env : Env) (e timestamp : String) :
    record_worker env (Except.error e) timestamp =
      ⟨[Event.status ("Starting " ++ ADB_BIN ++ " screenrecord..."),
        Event.status ("Failed to start screenrecord: " ++ e)], true⟩ ∧
    (record_worker env (Except.error e) timestamp).flagReset = true ∧
    cmdsOf (record_worker env (Except.error e) timestamp).events = [] ∧
    Event.terminate ∉ (record_worker env (Except.error e) timestamp).events := by
  refine ⟨rfl, rfl, rfl, ?_⟩
  simp [record_worker]

/-- **C8**: a stop request while no recording is active is a no-op: the
state (flag and thread handle) is returned unchanged, only an
informational dialog is produced, and no teardown step (terminate, pull,
delete, spawn) occurs. -/
theorem C8_stop_idle_noop (s : AppState) (h : s.recording = false) :
    stop_recording s =
      (s, [Event.msgInfo "Info" "No recording is currently running."]) ∧
    Event.terminate ∉ (stop_recording s).2 ∧
    pullCmds (stop_recording s).2 = [] ∧
    deleteCmds (stop_recording s).2 = [] ∧
    Event.spawnWorker ∉ (stop_recording s).2 := by
  have hs : stop_recording s =
      (s, [Event.msgInfo "Info" "No recording is currently running."]) := by
    simp [stop_recording, h]
  refine ⟨hs, ?_, ?_, ?_, ?_⟩ <;> rw [hs] <;> simp [pullCmds, deleteCmds]

/-- Witness for C8: a stop in the initial (idle) state. -/
theorem C8_witness :
    stop_recording initialAppState =
      (initialAppState, [Event.msgInfo "Info" "No recording is currently running."]) ∧
    pullCmds (stop_recording initialAppState).2 = [] :=
  ⟨(C8_stop_idle_noop initialAppState rfl).1,
   (C8_stop_idle_noop initialAppState rfl).2.2.1⟩

/-- **C3**: if the `devices` invocation throws, or the executor reports a
(non-blank) stream error, the presence check returns absence rather than
crashing; and whenever the check reports absence, the screenshot flow and
the recording flow issue no device command beyond the single `devices`
call (and spawn nothing). -/
theorem C3_failure_reports_absent (env : Env) (timestamp : String) (s : AppState) :
    ((∃ e, env ["devices"] = RunOutcome.exn e) →
        (check_device_connected env).1 = false) ∧
    (∀ out err, env ["devices"] = RunOutcome.ok out err → pyStrip err ≠ "" →
        (check_device_connected env).1 = false) ∧
    ((check_device_connected env).1 = false →
        take_screenshot env timestamp = (check_device_connected env).2 ∧
        cmdsOf (take_screenshot env timestamp) = [["devices"]] ∧
        (s.recording = false →
          start_recording env s = (s, (check_device_connected env).2) ∧
          Event.spawnWorker ∉ (start_recording env s).2)) := by
  refine ⟨?_, ?_, ?_⟩
  · rintro ⟨e, he⟩
    have hadb : adb_cmd env ["devices"] = ("", e) := by simp [adb_cmd, he]
    unfold check_device_connected
    rw [hadb]
    dsimp only
    by_cases h : e = ""
    · rw [if_neg (by simp [h])]
      rw [if_pos (by simp [h, parsedDevices, splitlines])]
    · rw [if_pos (by simp [h])]
  · intro out err hok herr
    have hadb : adb_cmd env ["devices"] = (pyStrip out, pyStrip err) := by
      simp [adb_cmd, hok]
    unfold check_device_connected
    rw [hadb]
    dsimp only
    rw [if_pos (by simp [herr])]
  · intro hfalse
    have hshot : take_screenshot env timestamp = (check_device_connected env).2 := by
      unfold take_screenshot
      dsimp only
      rw [hfalse]
      simp
    refine ⟨hshot, ?_, ?_⟩
    · rw [hshot, check_cmdsOf]
    · intro hrec
      have hstart : start_recording env s = (s, (check_device_connected env).2) := by
        unfold start_recording
        rw [hrec]
        dsimp only
        rw [hfalse]
        simp
      refine ⟨hstart, ?_⟩
      rw [hstart]
      dsimp only
      intro hmem
      have := check_cmdsOf env
      -- spawnWorker is not among the check's events, which are one cmd
      -- event plus dialogs
      revert hmem
      unfold check_device_connected
      dsimp only
      split
      · simp
      · split <;> simp

/-- Witness for C3: a thrown invocation (binary not found) yields absence,
and the screenshot flow then stops after the single `devices` call. -/
theorem C3_witness :
    (check_device_connected (fun _ => RunOutcome.exn "no such file")).1 = false ∧
    cmdsOf (take_screenshot (fun _ => RunOutcome.exn "no such file") "20250101_120000") =
      [["devices"]] := by
  refine ⟨?_, ?_⟩
  · exact (C3_failure_reports_absent (fun _ => RunOutcome.exn "no such file")
      "20250101_120000" initialAppState).1 ⟨"no such file", rfl⟩
  · exact ((C3_failure_reports_absent (fun _ => RunOutcome.exn "no such file")
      "20250101_120000" initialAppState).2.2
      ((C3_failure_reports_absent (fun _ => RunOutcome.exn "no such file")
        "20250101_120000" initialAppState).1 ⟨"no such file", rfl⟩)).2.1

/-- **C4**: a screenshot request with the device present and the
`screencap` and `pull` stages reporting no stream error produces exactly
one local file, `screenshot_<timestamp>.png`, and issues exactly one
device-side delete, of the fixed temporary capture path. -/
theorem C4_screenshot_success (env : Env) (timestamp : String)
    (hdev : (check_device_connected env).1 = true)
    (hcap : (adb_cmd env ["shell", "screencap", "-p", "/sdcard/tre_screenshot_tmp.png"]).2 = "")
    (hpull : (adb_cmd env ["pull", "/sdcard/tre_screenshot_tmp.png",
        "screenshot_" ++ timestamp ++ ".png"]).2 = "") :
    producedFiles (take_screenshot env timestamp) =
      ["screenshot_" ++ timestamp ++ ".png"] ∧
    pullCmds (take_screenshot env timestamp) =
      [["pull", "/sdcard/tre_screenshot_tmp.png", "screenshot_" ++ timestamp ++ ".png"]] ∧
    deleteCmds (take_screenshot env timestamp) = ["/sdcard/tre_screenshot_tmp.png"] := by
  have hts : take_screenshot env timestamp =
      (check_device_connected env).2 ++
        [Event.status "Capturing screenshot on device...",
         Event.cmd ["shell", "screencap", "-p", "/sdcard/tre_screenshot_tmp.png"]
           (adb_cmd env ["shell", "screencap", "-p", "/sdcard/tre_screenshot_tmp.png"]).1 "",
         Event.status "Pulling screenshot from device...",
         Event.cmd ["pull", "/sdcard/tre_screenshot_tmp.png",
             "screenshot_" ++ timestamp ++ ".png"]
           (adb_cmd env ["pull", "/sdcard/tre_screenshot_tmp.png",
             "screenshot_" ++ timestamp ++ ".png"]).1 "",
         Event.cmd ["shell", "rm", "/sdcard/tre_screenshot_tmp.png"]
           (adb_cmd env ["shell", "rm", "/sdcard/tre_screenshot_tmp.png"]).1
           (adb_cmd env ["shell", "rm", "/sdcard/tre_screenshot_tmp.png"]).2,
         Event.status ("Saved screenshot: " ++ ("screenshot_" ++ timestamp ++ ".png"))] := by
    simp only [take_screenshot]
    rw [hdev, hcap, hpull]
    simp
  refine ⟨?_, ?_, ?_⟩
  · rw [hts, producedFiles_append, check_producedFiles]
    simp [producedFiles]
  · rw [hts, pullCmds_append, check_pullCmds]
    simp [pullCmds]
  · rw [hts, deleteCmds_append, check_deleteCmds]
    simp [deleteCmds]

/-- A concrete environment with one device attached and every command
succeeding with empty streams. -/
def envAllOk : Env := fun args =>
  if args = ["devices"] then
    RunOutcome.ok "List of devices attached\nemulator-5554\tdevice" ""
  else
    RunOutcome.ok "" ""

/-- Witness for C4: under `envAllOk` the screenshot flow saves exactly one
file and deletes the device temp file once. -/
theorem C4_witness :
    producedFiles (take_screenshot envAllOk "20250101_120000") =
      ["screenshot_" ++ "20250101_120000" ++ ".png"] ∧
    deleteCmds (take_screenshot envAllOk "20250101_120000") =
      ["/sdcard/tre_screenshot_tmp.png"] :=
  ⟨(C4_screenshot_success envAllOk "20250101_120000" (by decide) (by decide) (by decide)).1,
   (C4_screenshot_success envAllOk "20250101_120000" (by decide) (by decide) (by decide)).2.2⟩

/-- The screenshot flow's trace when the device is present, the capture
stage succeeds and the pull stage reports a stream error. -/
lemma take_screenshot_pull_error (env : Env) (timestamp : String)
    (hdev : (check_device_connected env).1 = true)
    (hcap : (adb_cmd env ["shell", "screencap", "-p", "/sdcard/tre_screenshot_tmp.png"]).2 = "")
    (hpull : (adb_cmd env ["pull", "/sdcard/tre_screenshot_tmp.png",
        "screenshot_" ++ timestamp ++ ".png"]).2 ≠ "") :
    take_screenshot env timestamp =
      ((check_device_connected env).2 ++
        [Event.status "Capturing screenshot on device...",
         Event.cmd ["shell", "screencap", "-p", "/sdcard/tre_screenshot_tmp.png"]
           (adb_cmd env ["shell", "screencap", "-p", "/sdcard/tre_screenshot_tmp.png"]).1 "",
         Event.status "Pulling screenshot from device...",
         Event.cmd ["pull", "/sdcard/tre_screenshot_tmp.png",
             "screenshot_" ++ timestamp ++ ".png"]
           (adb_cmd env ["pull", "/sdcard/tre_screenshot_tmp.png",
             "screenshot_" ++ timestamp ++ ".png"]).1
           (adb_cmd env ["pull", "/sdcard/tre_screenshot_tmp.png",
             "screenshot_" ++ timestamp ++ ".png"]).2]) ++
        [Event.msgError "ADBB Error" ("pull failed:\n" ++
          (adb_cmd env ["pull", "/sdcard/tre_screenshot_tmp.png",
            "screenshot_" ++ timestamp ++ ".png"]).2)] := by
  simp only [take_screenshot]
  rw [hdev, hcap]
  rw [if_neg (by simp)]
  rw [if_neg (by simp)]
  rw [if_pos hpull]
  simp

/-- **C5**: a non-empty error stream at the capture stage or at the pull
stage aborts the screenshot flow with a user-visible error dialog as the
final event, issues no further device commands, and in particular never
issues the device-side delete of the temporary capture path. -/
theorem C5_screenshot_error_aborts (env : Env) (timestamp : String)
    (hdev : (check_device_connected env).1 = true) :
    ((adb_cmd env ["shell", "screencap", "-p", "/sdcard/tre_screenshot_tmp.png"]).2 ≠ "" →
        cmdsOf (take_screenshot env timestamp) =
          [["devices"], ["shell", "screencap", "-p", "/sdcard/tre_screenshot_tmp.png"]] ∧
        deleteCmds (take_screenshot env timestamp) = [] ∧
        (take_screenshot env timestamp).getLast? =
          some (Event.msgError "ADBB Error" ("screencap failed:\n" ++
            (adb_cmd env ["shell", "screencap", "-p", "/sdcard/tre_screenshot_tmp.png"]).2))) ∧
    ((adb_cmd env ["shell", "screencap", "-p", "/sdcard/tre_screenshot_tmp.png"]).2 = "" →
      (adb_cmd env ["pull", "/sdcard/tre_screenshot_tmp.png",
          "screenshot_" ++ timestamp ++ ".png"]).2 ≠ "" →
        cmdsOf (take_screenshot env timestamp) =
          [["devices"], ["shell", "screencap", "-p", "/sdcard/tre_screenshot_tmp.png"],
            ["pull", "/sdcard/tre_screenshot_tmp.png", "screenshot_" ++ timestamp ++ ".png"]] ∧
        deleteCmds (take_screenshot env timestamp) = [] ∧
        producedFiles (take_screenshot env timestamp) = [] ∧
        (take_screenshot env timestamp).getLast? =
          some (Event.msgError "ADBB Error" ("pull failed:\n" ++
            (adb_cmd env ["pull", "/sdcard/tre_screenshot_tmp.png",
              "screenshot_" ++ timestamp ++ ".png"]).2))) := by
  constructor
  · intro hcap
    have hts : take_screenshot env timestamp =
        (check_device_connected env).2 ++
          [Event.status "Capturing screenshot on device...",
           Event.cmd ["shell", "screencap", "-p", "/sdcard/tre_screenshot_tmp.png"]
             (adb_cmd env ["shell", "screencap", "-p", "/sdcard/tre_screenshot_tmp.png"]).1
             (adb_cmd env ["shell", "screencap", "-p", "/sdcard/tre_screenshot_tmp.png"]).2,
           Event.msgError "ADBB Error" ("screencap failed:\n" ++
             (adb_cmd env ["shell", "screencap", "-p", "/sdcard/tre_screenshot_tmp.png"]).2)] := by
      simp only [take_screenshot]
      rw [hdev]
      rw [if_neg (by simp)]
      rw [if_pos hcap]
      simp
    refine ⟨?_, ?_, ?_⟩
    · rw [hts, cmdsOf_append, check_cmdsOf]
      simp [cmdsOf]
    · rw [hts, deleteCmds_append, check_deleteCmds]
      simp [deleteCmds]
    · rw [hts]
      rw [show ((check_device_connected env).2 ++
          [Event.status "Capturing screenshot on device...",
           Event.cmd ["shell", "screencap", "-p", "/sdcard/tre_screenshot_tmp.png"]
             (adb_cmd env ["shell", "screencap", "-p", "/sdcard/tre_screenshot_tmp.png"]).1
             (adb_cmd env ["shell", "screencap", "-p", "/sdcard/tre_screenshot_tmp.png"]).2,
           Event.msgError "ADBB Error" ("screencap failed:\n" ++
             (adb_cmd env ["shell", "screencap", "-p", "/sdcard/tre_screenshot_tmp.png"]).2)]) =
          ((check_device_connected env).2 ++
           [Event.status "Capturing screenshot on device...",
            Event.cmd ["shell", "screencap", "-p", "/sdcard/tre_screenshot_tmp.png"]
              (adb_cmd env ["shell", "screencap", "-p", "/sdcard/tre_screenshot_tmp.png"]).1
              (adb_cmd env ["shell", "screencap", "-p", "/sdcard/tre_screenshot_tmp.png"]).2]) ++
          [Event.msgError "ADBB Error" ("screencap failed:\n" ++
            (adb_cmd env ["shell", "screencap", "-p", "/sdcard/tre_screenshot_tmp.png"]).2)]
        from by simp]
      rw [List.getLast?_concat]
  · intro hcap hpull
    have hts := take_screenshot_pull_error env timestamp hdev hcap hpull
    refine ⟨?_, ?_, ?_, ?_⟩
    · rw [hts, cmdsOf_append, cmdsOf_append, check_cmdsOf]
      simp [cmdsOf]
    · rw [hts, deleteCmds_append, deleteCmds_append, check_deleteCmds]
      simp [deleteCmds]
    · rw [hts, producedFiles_append, producedFiles_append, check_producedFiles]
      simp [producedFiles, hpull]
    · rw [hts, List.getLast?_concat]

/-- A concrete environment with one device attached whose `pull` command
fails with a stream error. -/
def envPullFails : Env := fun args =>
  if args = ["devices"] then
    RunOutcome.ok "List of devices attached\nemulator-5554\tdevice" ""
  else if args.head? = some "pull" then
    RunOutcome.ok "" "error: device offline"
  else
    RunOutcome.ok "" ""

/-- Witness for C5: under `envPullFails` the screenshot flow stops after
the failed pull and deletes nothing. -/
theorem C5_witness :
    deleteCmds (take_screenshot envPullFails "20250101_120000") = [] ∧
    producedFiles (take_screenshot envPullFails "20250101_120000") = [] :=
  ⟨((C5_screenshot_error_aborts envPullFails "20250101_120000" (by decide)).2
      (by decide) (by decide)).2.1,
   ((C5_screenshot_error_aborts envPullFails "20250101_120000" (by decide)).2
      (by decide) (by decide)).2.2.1⟩

/-- **C6**: in a recording session whose capture process spawned (start,
later a stop), the worker makes exactly one terminate attempt on the
capture process and issues exactly one pull, of the fixed temporary
recording path; if the pull reports no error the session produces exactly
one local file `record_<timestamp>.mp4` and a saved-status message, and
if the pull reports an error it produces zero local files and a status
message carrying the error text. -/
theorem C6_record_session (env : Env) (timestamp : String) :
    terminates (record_worker env (Except.ok ()) timestamp).events = [Event.terminate] ∧
    pullCmds (record_worker env (Except.ok ()) timestamp).events =
      [["pull", "/sdcard/tre_record_tmp.mp4", "record_" ++ timestamp ++ ".mp4"]] ∧
    ((adb_cmd env ["pull", "/sdcard/tre_record_tmp.mp4",
        "record_" ++ timestamp ++ ".mp4"]).2 = "" →
      producedFiles (record_worker env (Except.ok ()) timestamp).events =
        ["record_" ++ timestamp ++ ".mp4"] ∧
      Event.status ("Saved recording: " ++ ("record_" ++ timestamp ++ ".mp4")) ∈
        (record_worker env (Except.ok ()) timestamp).events) ∧
    ((adb_cmd env ["pull", "/sdcard/tre_record_tmp.mp4",
        "record_" ++ timestamp ++ ".mp4"]).2 ≠ "" →
      producedFiles (record_worker env (Except.ok ()) timestamp).events = [] ∧
      Event.status ("Pull error: " ++ (adb_cmd env ["pull", "/sdcard/tre_record_tmp.mp4",
        "record_" ++ timestamp ++ ".mp4"]).2) ∈
        (record_worker env (Except.ok ()) timestamp).events) := by
  by_cases h : (adb_cmd env ["pull", "/sdcard/tre_record_tmp.mp4",
      "record_" ++ timestamp ++ ".mp4"]).2 = ""
  · have hw : (record_worker env (Except.ok ()) timestamp).events =
        [Event.status ("Starting " ++ ADB_BIN ++ " screenrecord..."),
         Event.popen ["shell", "screenrecord", "/sdcard/tre_record_tmp.mp4"],
         Event.status "Stopping recording, please wait...",
         Event.terminate,
         Event.status "Pulling video from device...",
         Event.cmd ["pull", "/sdcard/tre_record_tmp.mp4", "record_" ++ timestamp ++ ".mp4"]
           (adb_cmd env ["pull", "/sdcard/tre_record_tmp.mp4",
             "record_" ++ timestamp ++ ".mp4"]).1 "",
         Event.status ("Saved recording: " ++ ("record_" ++ timestamp ++ ".mp4")),
         Event.cmd ["shell", "rm", "/sdcard/tre_record_tmp.mp4"]
           (adb_cmd env ["shell", "rm", "/sdcard/tre_record_tmp.mp4"]).1
           (adb_cmd env ["shell", "rm", "/sdcard/tre_record_tmp.mp4"]).2] := by
      simp only [record_worker]
      rw [h]
      simp
    refine ⟨?_, ?_, fun _ => ⟨?_, ?_⟩, fun hne => absurd h hne⟩ <;>
      simp [hw, terminates, pullCmds, producedFiles]
  · have hw : (record_worker env (Except.ok ()) timestamp).events =
        [Event.status ("Starting " ++ ADB_BIN ++ " screenrecord..."),
         Event.popen ["shell", "screenrecord", "/sdcard/tre_record_tmp.mp4"],
         Event.status "Stopping recording, please wait...",
         Event.terminate,
         Event.status "Pulling video from device...",
         Event.cmd ["pull", "/sdcard/tre_record_tmp.mp4", "record_" ++ timestamp ++ ".mp4"]
           (adb_cmd env ["pull", "/sdcard/tre_record_tmp.mp4",
             "record_" ++ timestamp ++ ".mp4"]).1
           (adb_cmd env ["pull", "/sdcard/tre_record_tmp.mp4",
             "record_" ++ timestamp ++ ".mp4"]).2,
         Event.status ("Pull error: " ++ (adb_cmd env ["pull", "/sdcard/tre_record_tmp.mp4",
           "record_" ++ timestamp ++ ".mp4"]).2),
         Event.cmd ["shell", "rm", "/sdcard/tre_record_tmp.mp4"]
           (adb_cmd env ["shell", "rm", "/sdcard/tre_record_tmp.mp4"]).1
           (adb_cmd env ["shell", "rm", "/sdcard/tre_record_tmp.mp4"]).2] := by
      simp only [record_worker]
      rw [if_pos h]
      simp
    refine ⟨?_, ?_, fun heq => absurd heq h, fun _ => ⟨?_, ?_⟩⟩ <;>
      simp [hw, terminates, pullCmds, producedFiles, h]

/-- **C10**: the recording worker's device-side delete of the temporary
recording file runs unconditionally after the pull attempt — exactly one
delete in every session, including sessions whose pull reported an error
— whereas the screenshot flow issues no delete when its pull fails. -/
theorem C10_cleanup_asymmetry (env : Env) (timestamp : String) :
    deleteCmds (record_worker env (Except.ok ()) timestamp).events =
      ["/sdcard/tre_record_tmp.mp4"] ∧
    ((check_device_connected env).1 = true →
      (adb_cmd env ["shell", "screencap", "-p", "/sdcard/tre_screenshot_tmp.png"]).2 = "" →
      (adb_cmd env ["pull", "/sdcard/tre_screenshot_tmp.png",
          "screenshot_" ++ timestamp ++ ".png"]).2 ≠ "" →
      deleteCmds (take_screenshot env timestamp) = []) := by
  constructor
  · simp only [record_worker]
    split <;> simp [deleteCmds_append, deleteCmds]
  · intro hdev hcap hpull
    rw [take_screenshot_pull_error env timestamp hdev hcap hpull,
      deleteCmds_append, deleteCmds_append, check_deleteCmds]
    simp [deleteCmds]

/-- Witness for C6: with every command succeeding, one terminate attempt
and exactly one saved recording. -/
theorem C6_witness :
    terminates (record_worker envAllOk (Except.ok ()) "20250101_120000").events =
      [Event.terminate] ∧
    producedFiles (record_worker envAllOk (Except.ok ()) "20250101_120000").events =
      ["record_" ++ "20250101_120000" ++ ".mp4"] :=
  ⟨(C6_record_session envAllOk "20250101_120000").1,
   ((C6_record_session envAllOk "20250101_120000").2.2.1 (by decide)).1⟩

/-- Witness for C10: with a failing `pull`, the recording worker still
deletes the device temp file while the screenshot flow does not. -/
theorem C10_witness :
    deleteCmds (record_worker envPullFails (Except.ok ()) "20250101_120000").events =
      ["/sdcard/tre_record_tmp.mp4"] ∧
    deleteCmds (take_screenshot envPullFails "20250101_120000") = [] :=
  ⟨(C10_cleanup_asymmetry envPullFails "20250101_120000").1,
   (C10_cleanup_asymmetry envPullFails "20250101_120000").2 (by decide) (by decide) (by decide)⟩

/-- Along a serialized trace from a state with at most one live worker,
every reachable state has at most one live worker. -/
lemma sysRun_workers_le :
    ∀ (tr : List Action) (s t : SysState), s.workers ≤ 1 →
      serializedFrom s tr = true → sysRun s tr = some t → t.workers ≤ 1 := by
  intro tr
  induction tr with
  | nil =>
    intro s t hs _ hrun
    simp only [sysRun] at hrun
    obtain rfl : s = t := by injection hrun
    exact hs
  | cons a as ih =>
    intro s t hs hser hrun
    simp only [serializedFrom, Bool.and_eq_true] at hser
    simp only [sysRun] at hrun
    cases a with
    | start present =>
      by_cases hrec : s.recording
      · simp only [sysStep, hrec, if_true] at hrun hser
        exact ih s t hs hser.2 hrun
      · have hw : s.workers = 0 := by
          rcases hser.1 with h1
          simp [hrec] at h1
          simpa using h1
        cases present with
        | true =>
          simp only [sysStep, hrec, if_false, Bool.false_eq_true, if_true] at hrun hser
          exact ih ⟨true, s.workers + 1⟩ t (by simp [hw]) (by simpa [hrec] using hser.2)
            (by simpa [hrec] using hrun)
        | false =>
          simp only [sysStep, hrec] at hrun hser
          exact ih s t hs (by simpa [hrec] using hser.2) (by simpa [hrec] using hrun)
    | stop =>
      by_cases hrec : s.recording
      · simp only [sysStep, hrec, if_true] at hrun hser
        exact ih ⟨false, s.workers⟩ t hs hser.2 hrun
      · simp only [sysStep, hrec] at hrun hser
        exact ih s t hs (by simpa [hrec] using hser.2) (by simpa [hrec] using hrun)
    | workerExit =>
      by_cases hw : s.workers = 0
      · simp [sysStep, hw] at hrun
      · simp only [sysStep, hw, if_false] at hrun hser
        exact ih ⟨s.recording, s.workers - 1⟩ t (by simp; omega)
          (by simpa [hw] using hser.2) (by simpa [hw] using hrun)
    | workerAbort =>
      by_cases hw : s.workers = 0
      · simp [sysStep, hw] at hrun
      · simp only [sysStep, hw, if_false] at hrun hser
        exact ih ⟨false, s.workers - 1⟩ t (by simp; omega)
          (by simpa [hw] using hser.2) (by simpa [hw] using hrun)

/-- **C1 (amended)**: provided every start request is issued either while
the recording flag is still true or after the previous session's worker
has exited (a serialized trace), at most one recording worker is live at
any time; and a start request issued while the recording flag is already
true is a no-op that leaves the flag, the worker handle and all other
state unchanged, shows only an informational dialog, and spawns no
worker.  (Without the serialization proviso the bound fails: see the
counterexample.) -/
theorem C1_single_worker_serialized :
    (∀ (tr : List Action) (t : SysState),
        serializedFrom initialSys tr = true → sysRun initialSys tr = some t →
        t.workers ≤ 1) ∧
    (∀ (env : Env) (s : AppState), s.recording = true →
        start_recording env s =
          (s, [Event.msgInfo "Info" "Recording is already in progress."]) ∧
        Event.spawnWorker ∉ (start_recording env s).2 ∧
        cmdsOf (start_recording env s).2 = []) := by
  constructor
  · intro tr t hser hrun
    exact sysRun_workers_le tr initialSys t (by simp [initialSys]) hser hrun
  · intro env s h
    have hs : start_recording env s =
        (s, [Event.msgInfo "Info" "Recording is already in progress."]) := by
      simp [start_recording, h]
    exact ⟨hs, by rw [hs]; simp, by rw [hs]; simp [cmdsOf]⟩

/-- Counterexample to C1 as stated: with no serialization requirement, the
action sequence start, stop, start — the second start arriving before the
first session's worker has exited its polling loop — is a run of the code
that leaves two workers live, because `start_recording` only checks the
`recording` flag, which the stop request has already cleared. -/
theorem C1_counterexample :
    ¬ (∀ (tr : List Action) (t : SysState),
        sysRun initialSys tr = some t → t.workers ≤ 1) := by
  intro h
  have h2 := h [Action.start true, Action.stop, Action.start true] ⟨true, 2⟩ (by decide)
  exact absurd h2 (by decide)

/-- Witness for C1: a serialized start–stop–exit–start trace keeps the
worker count at one, and a start in a recording state is the stated
no-op. -/
theorem C1_witness :
    (SysState.mk true 1).workers ≤ 1 ∧
    start_recording envAllOk ⟨true, some 0, 1⟩ =
      (⟨true, some 0, 1⟩, [Event.msgInfo "Info" "Recording is already in progress."]) :=
  ⟨C1_single_worker_serialized.1
      [Action.start true, Action.stop, Action.workerExit, Action.start true]
      ⟨true, 1⟩ (by decide) (by decide),
   (C1_single_worker_serialized.2 envAllOk ⟨true, some 0, 1⟩ rfl).1⟩

end Adbb
